import Mathlib

/-!
# Verification of the `redo-algo-efficiency` submission runner

This file gives a shallow embedding of the training-loop controller and
tuning harness of the repository (`src/submission_runner.py`), together
with the batch-divisibility checks and lazily populated parameter-shape
caches of the workloads cited by the claims, and proves or refutes the
frozen claims about them.

## Modelling conventions

* Machine wall-clock time is modelled by an explicit clock (`Nat`,
  seconds).  Each call into submission or workload code advances the
  clock by a duration that is part of the submission/workload model
  (`data_selection_time`, `preprocess_time`, `update_params_time`,
  `eval_model_time`).  `time.time()` reads the clock.  The clock value
  at `global_start_time = time.time()` (line 129 of
  `submission_runner.py`) is the parameter `t0`; the setup work before
  it does not influence any quantity the runner computes.
* Parameter containers, model state, optimizer state, batches, eval
  results, hyperparameters and the input queue are opaque to the runner
  (the loop never inspects them), so they are type parameters
  `P M O B E H Q`.
* `jax.random` keys are modelled by `Nat`; `split`/`fold_in` are
  modelled by an injective pairing, which is all the runner relies on
  (deterministic derivation of distinct subkeys).
* A submission's `update_params` raising `spec.TrainingCompleteError`
  (the only exception the loop catches, lines 149-164) is modelled by
  `update_params` returning `none`; a normal return is `some` of the
  `(optimizer_state, model_params, model_state)` triple.
* The unbounded `while` loop of `train_once` need not terminate
  (nothing forces a step to take positive time), so the loop is run on
  explicit fuel and returns `Option`: `none` means the loop had not
  exited after `fuel` iterations.
* In `train_once` the values `workload.model_params_types` and
  `workload.loss_type` are forwarded verbatim to `update_params`
  (lines 153, 158) and never inspected by the loop; this opaque
  forwarding is elided from the embedding of the loop.  They are
  embedded separately (per workload) for the claims about them.
-/

namespace AlgoEff

/-- Model of `jax.random.fold_in(rng, data)`, modelled as an injective pairing. -/
def fold_in (rng data : Nat) : Nat := Nat.pair rng data

/-- Model of `jax.random.split(rng, 4)`, modelled as four distinct derived keys. -/
def split4 (rng : Nat) : Nat × Nat × Nat × Nat :=
  (Nat.pair rng 0, Nat.pair rng 1, Nat.pair rng 2, Nat.pair rng 3)

/-- The part of the `spec.Workload` interface consumed by `train_once`
(`src/submission_runner.py`), with an explicit duration for each timed
call.  `Q` input queue, `P` model parameters, `M` model state, `B`
batches, `E` eval results. -/
structure Workload (Q P M B E : Type) where
  build_input_queue : Nat → String → Nat → Q
  init_model_fn : Nat → P × M
  preprocess_for_train : B → B → Nat → B × B
  preprocess_time : Nat
  eval_model : P → M → Nat → E
  eval_model_time : Nat
  has_reached_goal : E → Bool
  max_allowed_runtime_sec : Nat
  eval_period_time_sec : Nat

/-- The submission interface consumed by the runner
(`init_optimizer_state`, `update_params`, `data_selection`,
`get_batch_size`), with an explicit duration for each timed call.
`update_params` returning `none` models it raising
`spec.TrainingCompleteError`; durations may depend on the
hyperparameters and on the step index. -/
structure Submission (Q P M O B E H : Type) where
  get_batch_size : String → Nat
  init_optimizer_state : P → M → H → Nat → O
  data_selection : Q → O → P → H → Nat → Nat → B × B
  data_selection_time : H → Nat → Nat
  update_params : P → M → H → B × B → O → List (Nat × E) → Nat → Nat →
    Option (O × P × M)
  update_params_time : H → Nat → Nat

/-- The loop-carried state of `train_once` (lines 121-129 of
`src/submission_runner.py`), plus the wall clock. -/
structure LoopState (P M O E : Type) where
  goal_reached : Bool
  is_time_remaining : Bool
  last_eval_time : Nat
  accumulated_submission_time : Nat
  eval_results : List (Nat × E)
  global_step : Nat
  training_complete : Bool
  clock : Nat
  model_params : P
  model_state : M
  optimizer_state : O
deriving DecidableEq

/-- The state of `train_once` just before the `while` loop: bookkeeping
initialised as in lines 121-129, clock at `t0`. -/
def init_loop_state {P M O E : Type} (t0 : Nat) (p : P) (m : M) (o : O) :
    LoopState P M O E :=
  { goal_reached := false
    is_time_remaining := true
    last_eval_time := 0
    accumulated_submission_time := 0
    eval_results := []
    global_step := 0
    training_complete := false
    clock := t0
    model_params := p
    model_state := m
    optimizer_state := o }

variable {Q P M O B E H : Type}

/-- The four per-step rng keys
(`jax.random.split(jax.random.fold_in(rng, global_step), 4)`,
lines 132-134): data selection, preprocess, update, eval. -/
def step_rngs (rng step : Nat) : Nat × Nat × Nat × Nat :=
  split4 (fold_in rng step)

/-- The per-step `update_rng` key (third component of `step_rngs`). -/
def step_update_rng (rng step : Nat) : Nat := (step_rngs rng step).2.2.1

/-- The per-step `eval_rng` key (fourth component of `step_rngs`). -/
def step_eval_rng (rng step : Nat) : Nat := (step_rngs rng step).2.2.2

/-- The preprocessed batch handed to `update_params` on the current
step: `data_selection` followed by `preprocess_for_train`
(lines 136-148). -/
def selected_batch (w : Workload Q P M B E) (sub : Submission Q P M O B E H)
    (hyper : H) (rng : Nat) (q : Q) (s : LoopState P M O E) : B × B :=
  let (data_select_rng, preprocess_rng, _, _) := step_rngs rng s.global_step
  let (sel_input, sel_label) := sub.data_selection q s.optimizer_state
    s.model_params hyper s.global_step data_select_rng
  w.preprocess_for_train sel_input sel_label preprocess_rng

/-- The wall-clock duration of the timed section of one step: the span
from `start_time = time.time()` (line 135, just before
`data_selection`) to `current_time = time.time()` (line 166, just after
`update_params` returned or raised): the durations of `data_selection`,
`preprocess_for_train` and `update_params`.  `eval_model` runs outside
this span. -/
def step_submission_time (w : Workload Q P M B E)
    (sub : Submission Q P M O B E H) (hyper : H) (step : Nat) : Nat :=
  sub.data_selection_time hyper step + w.preprocess_time +
    sub.update_params_time hyper step

/-- One iteration of the `while` loop of `train_once`
(lines 131-180 of `src/submission_runner.py`). -/
def trainStep (w : Workload Q P M B E) (sub : Submission Q P M O B E H)
    (hyper : H) (rng : Nat) (q : Q) (s : LoopState P M O E) :
    LoopState P M O E :=
  let start_time := s.clock
  let batch := selected_batch w sub hyper rng q s
  let upd := sub.update_params s.model_params s.model_state hyper batch
    s.optimizer_state s.eval_results s.global_step
    (step_update_rng rng s.global_step)
  -- `try ... except spec.TrainingCompleteError`: on `none` the triple
  -- keeps its pre-step values (the assignment never happened).
  let training_complete := s.training_complete || upd.isNone
  let st := match upd with
    | some r => r
    | none => (s.optimizer_state, s.model_params, s.model_state)
  let global_step := s.global_step + 1
  let current_time := start_time + step_submission_time w sub hyper s.global_step
  let accumulated := s.accumulated_submission_time + (current_time - start_time)
  let time_remaining := decide (accumulated < w.max_allowed_runtime_sec)
  if w.eval_period_time_sec ≤ current_time - s.last_eval_time ∨
      training_complete = true then
    let latest := w.eval_model st.2.1 st.2.2 (step_eval_rng rng s.global_step)
    { goal_reached := w.has_reached_goal latest
      is_time_remaining := time_remaining
      last_eval_time := current_time
      accumulated_submission_time := accumulated
      eval_results := s.eval_results ++ [(global_step, latest)]
      global_step := global_step
      training_complete := training_complete
      clock := current_time + w.eval_model_time
      model_params := st.2.1
      model_state := st.2.2
      optimizer_state := st.1 }
  else
    { s with
      is_time_remaining := time_remaining
      accumulated_submission_time := accumulated
      global_step := global_step
      training_complete := training_complete
      clock := current_time
      model_params := st.2.1
      model_state := st.2.2
      optimizer_state := st.1 }

/-- The `while` guard of line 131:
`is_time_remaining and not goal_reached and not training_complete`. -/
def continue_cond (s : LoopState P M O E) : Bool :=
  s.is_time_remaining && !s.goal_reached && !s.training_complete

/-- The `while` loop of `train_once`, run on explicit fuel; `none`
means the loop had not exited after `fuel` iterations. -/
def trainLoop (w : Workload Q P M B E) (sub : Submission Q P M O B E H)
    (hyper : H) (rng : Nat) (q : Q) :
    Nat → LoopState P M O E → Option (LoopState P M O E)
  | 0, s => if continue_cond s then none else some s
  | fuel + 1, s =>
    if continue_cond s then
      trainLoop w sub hyper rng q fuel (trainStep w sub hyper rng q s)
    else some s

/-- Function `train_once` (lines 100-182) up to its final loop state: rng
splitting, workload setup, then the loop from the initial bookkeeping
state. -/
def train_once_state (fuel t0 : Nat) (w : Workload Q P M B E)
    (sub : Submission Q P M O B E H) (batch_size : Nat) (hyper : H)
    (rng : Nat) : Option (LoopState P M O E) :=
  let (data_rng, opt_init_rng, model_init_rng, loop_rng) := split4 rng
  let q := w.build_input_queue data_rng "train" batch_size
  let (p, m) := w.init_model_fn model_init_rng
  let o := sub.init_optimizer_state p m hyper opt_init_rng
  trainLoop w sub hyper loop_rng q fuel (init_loop_state t0 p m o)

/-- The metrics dict returned by `train_once` (line 181). -/
structure TrialMetrics (E : Type) where
  eval_results : List (Nat × E)
  global_step : Nat
deriving DecidableEq

/-- Return value of `train_once` (line 182):
`(accumulated_submission_time, metrics)`. -/
def train_once (fuel t0 : Nat) (w : Workload Q P M B E)
    (sub : Submission Q P M O B E H) (batch_size : Nat) (hyper : H)
    (rng : Nat) : Option (Nat × TrialMetrics E) :=
  (train_once_state fuel t0 w sub batch_size hyper rng).map fun s =>
    (s.accumulated_submission_time, ⟨s.eval_results, s.global_step⟩)

/-! ## The tuning orchestrator `score_submission_on_workload`
(lines 185-249 of `src/submission_runner.py`). -/

/-- Python exceptions `score_submission_on_workload` can raise.
`unbound_local_error`: in the self-tuning branch (lines 240-247) the
call `train_once(..., hyperparameters, rng)` references the local names
`hyperparameters` and `rng`, which are assigned only inside the
external-tuning branch (lines 215-218), so Python raises
`UnboundLocalError` before `train_once` is entered.
`value_error_missing_search_space` is the explicit raise of
lines 206-209; `value_error_empty_min` is `min([])` at line 230 when
the generated search space is empty. -/
inductive RunnerError where
  | value_error_missing_search_space
  | unbound_local_error
  | value_error_empty_min
deriving DecidableEq

deriving instance DecidableEq for Except

/-- The process environment `score_submission_on_workload` reads:
the `FLAGS.submission_path` global (line 192), the module loader
(`importlib.import_module` plus attribute lookups, lines 193-197) and
the `WORKLOADS` registry (line 200). -/
structure RunnerEnv (Q P M O B E H : Type) where
  flags_submission_path : String
  load_submission : String → Submission Q P M O B E H
  workloads : String → Workload Q P M B E

/-- The `for hi, hyperparameters in enumerate(tuning_search_space)`
loop of lines 215-229: one `train_once` call per generated setting
(trial `hi` seeded with `trial_seeds hi`), timings collected in order
into `all_timings`.  `none` when some trial's loop had not exited
within `fuel` iterations.  (`all_metrics` is collected alongside but
only ever logged, lines 231-236, so it is not carried here.) -/
def run_trials (fuel t0 : Nat) (w : Workload Q P M B E)
    (sub : Submission Q P M O B E H) (batch_size : Nat)
    (trial_seeds : Nat → Nat) : List (Nat × H) → Option (List Nat)
  | [] => some []
  | (hi, hyper) :: rest =>
    match train_once fuel t0 w sub batch_size hyper (trial_seeds hi) with
    | none => none
    | some (timing, _) =>
      (run_trials fuel t0 w sub batch_size trial_seeds rest).map
        fun ts => timing :: ts

/-- Function `score_submission_on_workload` (lines 185-249).  The file read and
`halton.generate_search` of lines 210-212 (whose source is outside the
repository snapshot) are represented by their output: the
`tuning_search_space` argument is `none` for the Python `None` and
`some settings` for a search-space file from which the generator
produces `settings`.  The per-trial hardware seeds drawn from
`os.urandom` (line 217) are the oracle `trial_seeds`.  The result is
`none` when some trial's loop had not exited within `fuel` iterations,
otherwise `some` of the raised exception or of the returned score
(`min(all_timings)`, line 230, is `ValueError` on an empty list).
Note line 192 reads the global `FLAGS.submission_path`, not the
`submission_path` parameter. -/
def score_submission_on_workload (fuel t0 : Nat)
    (env : RunnerEnv Q P M O B E H)
    (workload_name submission_path tuning_ruleset : String)
    (tuning_search_space : Option (List H)) (trial_seeds : Nat → Nat) :
    Option (Except RunnerError Nat) :=
  let submission := env.load_submission env.flags_submission_path
  let batch_size := submission.get_batch_size workload_name
  let w := env.workloads workload_name
  if tuning_ruleset = "external" then
    match tuning_search_space with
    | none => some (.error .value_error_missing_search_space)
    | some settings =>
      match run_trials fuel t0 w submission batch_size trial_seeds
          settings.enum with
      | none => none
      | some [] => some (.error .value_error_empty_min)
      | some (t :: ts) => some (.ok (ts.foldl min t))
  else
    some (.error .unbound_local_error)

end AlgoEff

namespace AlgoEff.Workloads

/-! ## Per-workload queue building and parameter-shape caches

Embeddings of the workload code cited by the claims about
`build_input_queue` divisibility checking and about the lazily
populated `param_shapes`/`model_params_types`. -/

/-- Python exceptions raised by the workload property getters and
dataset builders. -/
inductive PyError where
  | value_error (msg : String)
  | not_implemented_error
deriving DecidableEq

/-- The batch-size gate of `_build_dataset` in
`src/algorithmic_efficiency/workloads/librispeech_conformer/workload.py`
(lines 114-115): raise `ValueError` when the global batch size is not
divisible by `jax.local_device_count()`; otherwise the function
proceeds to build the (I/O-bound) dataset, represented here by the
per-device batch layout `(local_device_count, batch_size / count)` it
induces. -/
def librispeech_build_dataset (local_device_count batch_size : Nat) :
    Except PyError (Nat × Nat) :=
  if batch_size % local_device_count > 0 then
    .error (.value_error "Batch size must be divisible by the number of devices")
  else
    .ok (local_device_count, batch_size / local_device_count)

/-- Method `build_input_queue` of
`src/algorithmic_efficiency/workloads/criteo1tb/criteo1tb_pytorch/workload.py`
(line 115): `per_device_batch_size = int(global_batch_size / N_GPUS)`.
There is no divisibility check: the function always proceeds to build
the queue, whose per-device payload is the floored per-device batch
size (`int` truncation on nonnegative operands is floor division). -/
def criteo1tb_pytorch_build_input_queue (n_gpus global_batch_size : Nat) :
    Except PyError Nat :=
  .ok (global_batch_size / n_gpus)

/-- Method `_build_dataloader` of
`src/workloads/mnist/mnist_pytorch/workload.py` (lines 49-75): builds a
`torch.utils.data.DataLoader` with the given batch size and no
divisibility or shard check of any kind; a `DataLoader` chunks the
dataset into batches of the given size with a smaller final remainder
batch.  Represented by the resulting batch-size sequence. -/
def mnist_build_dataloader (num_examples batch_size : Nat) :
    Except PyError (List Nat) :=
  .ok (List.replicate (num_examples / batch_size) batch_size ++
    (if num_examples % batch_size > 0 then [num_examples % batch_size] else []))

/-- The lazily populated caches of `BaseCriteo1TbDlrmSmallWorkload`
(`src/algorithmic_efficiency/workloads/criteo1tb/workload.py`,
lines 20-21 of `__init__`): `self._param_shapes = None`,
`self._param_types = None`.  `Sh` is the type of the shape tree, `Ty`
of the parameter-type tree. -/
structure CriteoWorkloadState (Sh Ty : Type) where
  param_shapes_cache : Option Sh
  param_types_cache : Option Ty
deriving DecidableEq

/-- A freshly constructed Criteo workload: both caches empty. -/
def criteoInit (Sh Ty : Type) : CriteoWorkloadState Sh Ty := ⟨none, none⟩

/-- The `param_shapes` property of `BaseCriteo1TbDlrmSmallWorkload`
(lines 98-105): raise `ValueError` while `self._param_shapes` is still
`None`, return it once populated. -/
def criteo_param_shapes {Sh Ty : Type} (s : CriteoWorkloadState Sh Ty) :
    Except PyError Sh :=
  match s.param_shapes_cache with
  | none => .error (.value_error
      "This should not happen, workload.init_model_fn() should be called before workload.param_shapes!")
  | some sh => .ok sh

/-- Method `init_model_fn` of `Criteo1TbDlrmSmallWorkload`
(`criteo1tb_pytorch/workload.py`, lines 57-75) as it acts on the shape
cache: it constructs the `DlrmSmall` model and sets
`self._param_shapes` to the shape tree of its named parameters
(`dlrm_shapes` stands for that tree). -/
def criteo_init_model_fn {Sh Ty : Type} (dlrm_shapes : Sh)
    (s : CriteoWorkloadState Sh Ty) : CriteoWorkloadState Sh Ty :=
  { s with param_shapes_cache := some dlrm_shapes }

/-- The `model_params_types` property of `Criteo1TbDlrmSmallWorkload`
(`criteo1tb_pytorch/workload.py`, lines 26-34): raise `ValueError`
while `self._param_shapes` is `None`; otherwise memoise
`param_utils.jax_param_types(self._param_shapes)` (abstracted as the
function `jax_param_types`) and return it, together with the updated
cache state. -/
def criteo_model_params_types {Sh Ty : Type} (jax_param_types : Sh → Ty)
    (s : CriteoWorkloadState Sh Ty) :
    Except PyError (CriteoWorkloadState Sh Ty × Ty) :=
  match s.param_shapes_cache with
  | none => .error (.value_error
      "This should not happen, workload.init_model_fn() should be called before workload.param_shapes!")
  | some sh =>
    match s.param_types_cache with
    | none =>
      .ok ({ s with param_types_cache := some (jax_param_types sh) },
        jax_param_types sh)
    | some ty => .ok (s, ty)

/-- The state of `MnistWorkload`
(`src/workloads/mnist/mnist_pytorch/workload.py`): its only instance
attribute is the memoised eval dataset (`self._eval_ds = None`). -/
structure MnistWorkloadState where
  eval_ds : Option Unit
deriving DecidableEq

/-- A freshly constructed MNIST workload. -/
def mnistInit : MnistWorkloadState := ⟨none⟩

/-- The `param_shapes` property of `MnistWorkload` (lines 85-93):
`raise NotImplementedError`, unconditionally — it does not consult any
cache. -/
def mnist_param_shapes (s : MnistWorkloadState) : Except PyError Unit :=
  .error .not_implemented_error

/-- Method `init_model_fn` of `MnistWorkload` (lines 121-126) as it acts on
the workload instance: it builds and returns the torch model and
touches no instance attribute (in particular no shape cache exists to
populate). -/
def mnist_init_model_fn (s : MnistWorkloadState) : MnistWorkloadState := s

/-- The `model_params_types` method of `MnistWorkload` (lines 95-96):
its body is `pass`, so calling it returns `None` normally — it is not
a guarded property and never raises. -/
def mnist_model_params_types (s : MnistWorkloadState) : Option Unit :=
  none

end AlgoEff.Workloads

namespace AlgoEff

/-! ## Concrete instantiations

Concrete submissions, workloads and environments (all opaque types
instantiated at `Nat`) used to evaluate the runner embedding at
explicit inputs. -/

/-- A concrete submission: `update_params` stores the hyperparameter
value into the model parameters and takes `hyper` seconds per step;
data selection is instantaneous. -/
def cSubmission : Submission Nat Nat Nat Nat Nat Nat Nat where
  get_batch_size := fun _ => 1
  init_optimizer_state := fun _ _ _ _ => 0
  data_selection := fun _ _ _ _ _ _ => (0, 0)
  data_selection_time := fun _ _ => 0
  update_params := fun _ _ hyper _ o _ _ _ => some (o, hyper, 0)
  update_params_time := fun hyper _ => hyper

/-- A concrete workload: evaluation reads the model parameters, the
goal is an eval result of at least 3, evals are eligible every step,
and the runtime budget is `max_runtime` seconds. -/
def cWorkload (max_runtime : Nat) : Workload Nat Nat Nat Nat Nat where
  build_input_queue := fun _ _ _ => 0
  init_model_fn := fun _ => (0, 0)
  preprocess_for_train := fun i l _ => (i, l)
  preprocess_time := 0
  eval_model := fun p _ _ => p
  eval_model_time := 1
  has_reached_goal := fun e => decide (3 ≤ e)
  max_allowed_runtime_sec := max_runtime
  eval_period_time_sec := 0

/-- Variant of `cWorkload 100` with a goal predicate that never holds. -/
def cWorkloadNoGoal : Workload Nat Nat Nat Nat Nat :=
  { cWorkload 100 with has_reached_goal := fun _ => false }

/-- A concrete submission whose `update_params` raises the completion
signal exactly on its third call (step index 2), taking 1 second per
step. -/
def cSubmissionSignal : Submission Nat Nat Nat Nat Nat Nat Nat :=
  { cSubmission with
    update_params := fun _ _ _ _ _ _ i _ =>
      if i = 2 then none else some (0, 0, 0)
    update_params_time := fun _ _ => 1 }

/-- A concrete submission whose `update_params` always raises the
completion signal, taking 1 second per step. -/
def cSubmissionAlwaysSignal : Submission Nat Nat Nat Nat Nat Nat Nat :=
  { cSubmission with
    update_params := fun _ _ _ _ _ _ _ _ => none
    update_params_time := fun _ _ => 1 }

/-- A concrete runner environment: every workload name resolves to
`cWorkload 100` and every module path loads `cSubmission`. -/
def cEnv : RunnerEnv Nat Nat Nat Nat Nat Nat Nat where
  flags_submission_path := "workloads/mnist_jax/submission.py"
  load_submission := fun _ => cSubmission
  workloads := fun _ => cWorkload 100

/-- Variant of `cEnv` with a 1-second runtime budget instead. -/
def cEnvTight : RunnerEnv Nat Nat Nat Nat Nat Nat Nat :=
  { cEnv with workloads := fun _ => cWorkload 1 }

/-- The final loop state of a trial that exhausts its 10-second budget
without reaching the goal: evaluating
`train_once_state 20 7 (cWorkload 10) cSubmission 1 2 11`. -/
def cBudgetFailState : LoopState Nat Nat Nat Nat :=
  { goal_reached := false
    is_time_remaining := false
    last_eval_time := 21
    accumulated_submission_time := 10
    eval_results := [(1, 2), (2, 2), (3, 2), (4, 2), (5, 2)]
    global_step := 5
    training_complete := false
    clock := 22
    model_params := 2
    model_state := 0
    optimizer_state := 0 }

/-- The final loop state of a trial that reaches the goal well inside
the same 10-second budget: evaluating
`train_once_state 20 7 (cWorkload 10) cSubmission 1 3 11`. -/
def cBudgetGoalState : LoopState Nat Nat Nat Nat :=
  { goal_reached := true
    is_time_remaining := true
    last_eval_time := 10
    accumulated_submission_time := 3
    eval_results := [(1, 3)]
    global_step := 1
    training_complete := false
    clock := 11
    model_params := 3
    model_state := 0
    optimizer_state := 0 }

/-- The final loop state of the completion-signal scenario
(`cSubmissionSignal` on `cWorkloadNoGoal`): obtained by evaluating
`train_once_state 9 7 cWorkloadNoGoal cSubmissionSignal 1 0 11`. -/
def cSignalFinalState : LoopState Nat Nat Nat Nat :=
  { goal_reached := false
    is_time_remaining := true
    last_eval_time := 12
    accumulated_submission_time := 3
    eval_results := [(1, 0), (2, 0), (3, 0)]
    global_step := 3
    training_complete := true
    clock := 13
    model_params := 0
    model_state := 0
    optimizer_state := 0 }

end AlgoEff

namespace AlgoEff

/-! ## Helper lemmas about one step and about the loop -/

variable {Q P M O B E H : Type}
variable {w : Workload Q P M B E} {sub : Submission Q P M O B E H}
variable {hyper : H} {rng : Nat} {q : Q}

theorem trainStep_global_step (s : LoopState P M O E) :
    (trainStep w sub hyper rng q s).global_step = s.global_step + 1 := by
  simp only [trainStep]
  split <;> rfl

theorem trainStep_training_complete (s : LoopState P M O E) :
    (trainStep w sub hyper rng q s).training_complete =
      (s.training_complete ||
        (sub.update_params s.model_params s.model_state hyper
          (selected_batch w sub hyper rng q s) s.optimizer_state
          s.eval_results s.global_step
          (step_update_rng rng s.global_step)).isNone) := by
  simp only [trainStep]
  split <;> rfl

theorem trainStep_accumulated (s : LoopState P M O E) :
    (trainStep w sub hyper rng q s).accumulated_submission_time =
      s.accumulated_submission_time +
        step_submission_time w sub hyper s.global_step := by
  simp only [trainStep]
  split <;> simp

theorem trainStep_is_time_remaining (s : LoopState P M O E) :
    (trainStep w sub hyper rng q s).is_time_remaining =
      decide (s.accumulated_submission_time +
        step_submission_time w sub hyper s.global_step <
          w.max_allowed_runtime_sec) := by
  simp only [trainStep]
  split <;> simp

theorem trainLoop_of_cond_false {s : LoopState P M O E}
    (h : continue_cond s = false) (fuel : Nat) :
    trainLoop w sub hyper rng q fuel s = some s := by
  cases fuel <;> simp [trainLoop, h]

theorem trainLoop_cond_final {fuel : Nat} {s s' : LoopState P M O E}
    (h : trainLoop w sub hyper rng q fuel s = some s') :
    continue_cond s' = false := by
  induction fuel generalizing s with
  | zero =>
    rw [trainLoop] at h
    by_cases hc : continue_cond s = true
    · simp [hc] at h
    · simp [hc] at h
      subst h
      simpa using hc
  | succ n ih =>
    rw [trainLoop] at h
    by_cases hc : continue_cond s = true
    · simp only [hc, if_true] at h
      exact ih h
    · simp [hc] at h
      subst h
      simpa using hc

theorem trainLoop_exit {fuel : Nat} {s s' : LoopState P M O E}
    (h0 : continue_cond s = true)
    (h : trainLoop w sub hyper rng q fuel s = some s') :
    ∃ s₁, continue_cond s₁ = true ∧
      s' = trainStep w sub hyper rng q s₁ := by
  induction fuel generalizing s with
  | zero =>
    rw [trainLoop] at h
    simp [h0] at h
  | succ n ih =>
    rw [trainLoop] at h
    simp only [h0, if_true] at h
    by_cases hc : continue_cond (trainStep w sub hyper rng q s) = true
    · exact ih hc h
    · rw [trainLoop_of_cond_false (by simpa using hc)] at h
      exact ⟨s, h0, (Option.some_inj.mp h).symm⟩

theorem trainLoop_invariant (Inv : LoopState P M O E → Prop)
    (hstep : ∀ s, continue_cond s = true → Inv s →
      Inv (trainStep w sub hyper rng q s)) :
    ∀ {fuel : Nat} {s s' : LoopState P M O E}, Inv s →
      trainLoop w sub hyper rng q fuel s = some s' → Inv s' := by
  intro fuel
  induction fuel with
  | zero =>
    intro s s' hs h
    rw [trainLoop] at h
    by_cases hc : continue_cond s = true
    · simp [hc] at h
    · simp [hc] at h
      subst h
      exact hs
  | succ n ih =>
    intro s s' hs h
    rw [trainLoop] at h
    by_cases hc : continue_cond s = true
    · simp only [hc, if_true] at h
      exact ih (hstep s hc hs) h
    · simp [hc] at h
      subst h
      exact hs

theorem continue_cond_init {t0 : Nat} {p : P} {m : M} {o : O} :
    continue_cond (init_loop_state (E := E) t0 p m o) = true := rfl

theorem train_once_state_eq {fuel t0 batch_size : Nat} {hyper : H}
    {rng : Nat} :
    train_once_state fuel t0 w sub batch_size hyper rng =
      trainLoop w sub hyper (split4 rng).2.2.2
        (w.build_input_queue (split4 rng).1 "train" batch_size) fuel
        (init_loop_state t0 (w.init_model_fn (split4 rng).2.2.1).1
          (w.init_model_fn (split4 rng).2.2.1).2
          (sub.init_optimizer_state (w.init_model_fn (split4 rng).2.2.1).1
            (w.init_model_fn (split4 rng).2.2.1).2 hyper
            (split4 rng).2.1)) := rfl

/-- Lemma: `run_trials` produces one timing per trial, in order. -/
theorem run_trials_length {fuel t0 batch_size : Nat}
    {trial_seeds : Nat → Nat} :
    ∀ {l : List (Nat × H)} {ts : List Nat},
      run_trials fuel t0 w sub batch_size trial_seeds l = some ts →
      ts.length = l.length := by
  intro l
  induction l with
  | nil =>
    intro ts h
    rw [run_trials] at h
    cases h
    rfl
  | cons p rest ih =>
    intro ts h
    rw [run_trials] at h
    cases hto : train_once fuel t0 w sub batch_size p.2 (trial_seeds p.1) with
    | none => rw [hto] at h; cases h
    | some r =>
      rw [hto] at h
      cases hrest : run_trials fuel t0 w sub batch_size trial_seeds rest with
      | none => rw [hrest] at h; cases h
      | some ts' =>
        rw [hrest] at h
        cases h
        simpa using ih hrest

/-- Lemma: `List.foldl min` is a member of the folded list. -/
theorem foldl_min_mem : ∀ (ts : List Nat) (t : Nat),
    ts.foldl min t ∈ t :: ts
  | [], t => by simp
  | a :: ts, t => by
    rw [List.foldl_cons]
    have h := foldl_min_mem ts (min t a)
    rcases List.mem_cons.mp h with h | h
    · rw [h]
      rcases Nat.le_total t a with hle | hle
      · rw [Nat.min_eq_left hle]
        exact List.mem_cons_self _ _
      · rw [Nat.min_eq_right hle]
        exact List.mem_cons_of_mem _ (List.mem_cons_self _ _)
    · exact List.mem_cons_of_mem _ (List.mem_cons_of_mem _ h)

/-- Lemma: `List.foldl min` is a lower bound of the folded list. -/
theorem foldl_min_le : ∀ (ts : List Nat) (t : Nat),
    ∀ x ∈ t :: ts, ts.foldl min t ≤ x
  | [], t => by simp
  | a :: ts, t => by
    intro x hx
    rw [List.foldl_cons]
    have hmin := foldl_min_le ts (min t a)
    have hhead : List.foldl min (min t a) ts ≤ min t a :=
      hmin _ (List.mem_cons_self _ _)
    rcases List.mem_cons.mp hx with rfl | h
    · exact le_trans hhead (Nat.min_le_left _ _)
    · rcases List.mem_cons.mp h with rfl | h
      · exact le_trans hhead (Nat.min_le_right _ _)
      · exact hmin _ (List.mem_cons_of_mem _ h)

end AlgoEff

namespace AlgoEff

/-! ## Claim theorems -/

section Claims

variable {Q P M O B E H : Type}
variable {w : Workload Q P M B E} {sub : Submission Q P M O B E H}
variable {hyper : H} {rng : Nat}

/-- Claim C1: in `train_once`, the accumulated submission time returned
for a trial is exactly the sum over the steps taken of the wall-clock
span from just before `data_selection` to just after `update_params`
returned (or raised the completion signal) — i.e. of
`step_submission_time` —, so for every step the time spent inside
`workload.eval_model` (which runs outside that span) is never added to
`accumulated_submission_time`. -/
theorem c1_accumulated_time_is_sum_of_timed_spans
    {fuel t0 batch_size : Nat} {t : Nat} {m : TrialMetrics E}
    (h : train_once fuel t0 w sub batch_size hyper rng = some (t, m)) :
    t = ∑ i in Finset.range m.global_step,
      step_submission_time w sub hyper i := by
  rw [train_once] at h
  cases hs : train_once_state fuel t0 w sub batch_size hyper rng with
  | none => rw [hs] at h; cases h
  | some s =>
    rw [hs, Option.map_some'] at h
    have hpair := Option.some_inj.mp h
    have ht : s.accumulated_submission_time = t := congrArg Prod.fst hpair
    have hm : (⟨s.eval_results, s.global_step⟩ : TrialMetrics E) = m :=
      congrArg Prod.snd hpair
    have hgs : s.global_step = m.global_step := by rw [← hm]
    rw [train_once_state_eq] at hs
    have hInv := trainLoop_invariant
      (fun st => st.accumulated_submission_time =
        ∑ i in Finset.range st.global_step,
          step_submission_time w sub hyper i)
      (fun st _ hI => by
        dsimp only at hI ⊢
        rw [trainStep_accumulated, trainStep_global_step,
          Finset.sum_range_succ, hI])
      (by simp [init_loop_state]) hs
    rw [← ht, ← hgs]
    exact hInv

/-- Witness for C1: a concrete trial returning time 2 after one step,
with 2 the sum of the single step's timed span. -/
theorem c1_witness :
    train_once 5 7 (cWorkload 1) cSubmission 1 2 11 =
      some (2, ⟨[(1, 2)], 1⟩) ∧
    (2 : Nat) = ∑ i in Finset.range (1 : Nat),
      step_submission_time (cWorkload 1) cSubmission 2 i :=
  ⟨by decide, c1_accumulated_time_is_sum_of_timed_spans
    (by decide : train_once 5 7 (cWorkload 1) cSubmission 1 2 11 =
      some (2, (⟨[(1, 2)], 1⟩ : TrialMetrics Nat)))⟩

/-- Claim C2 (refuted, code bug): the spec says the self-tuning branch
runs exactly one trial and returns its time without error, but lines
240-247 of `src/submission_runner.py` reference the local names
`hyperparameters` and `rng`, which are assigned only inside the
external-tuning branch, so for every `tuning_ruleset ≠ "external"` the
orchestrator raises `UnboundLocalError` before `train_once` is ever
entered. -/
theorem c2_self_tuning_raises_unbound_local
    {fuel t0 : Nat} (env : RunnerEnv Q P M O B E H)
    (workload_name submission_path tuning_ruleset : String)
    (tuning_search_space : Option (List H)) (trial_seeds : Nat → Nat)
    (h : tuning_ruleset ≠ "external") :
    score_submission_on_workload fuel t0 env workload_name
        submission_path tuning_ruleset tuning_search_space trial_seeds =
      some (.error .unbound_local_error) := by
  unfold score_submission_on_workload
  simp [h]

/-- Witness for C2 at the concrete ruleset `"self"`. -/
theorem c2_witness :
    "self" ≠ "external" ∧
    score_submission_on_workload 5 7 cEnv "mnist" "sub.py" "self" none
      (fun _ => 11) = some (.error .unbound_local_error) :=
  ⟨by decide,
    c2_self_tuning_raises_unbound_local cEnv "mnist" "sub.py" "self" none
      (fun _ => 11) (by decide)⟩

/-- Counterexample to claim C3: `train_once` returns no high/unbounded
sentinel for a trial that never reaches the goal — it returns the
trial's actual accumulated time.  Concretely, on a workload with
`max_allowed_runtime_sec = 1`, the failed trial (hyperparameter 2,
goal never reached) returns the finite time 2, a goal-reaching trial
returns 3, and the external-tuning orchestrator's minimum selects the
failed trial's 2 — so a failed trial *can* win the minimum even though
another trial reached the goal. -/
theorem c3_counterexample :
    train_once 5 7 (cWorkload 1) cSubmission 1 2 11 =
      some (2, ⟨[(1, 2)], 1⟩) ∧
    (train_once_state 5 7 (cWorkload 1) cSubmission 1 2 11).map
      (fun s => s.goal_reached) = some false ∧
    train_once 5 7 (cWorkload 1) cSubmission 1 3 11 =
      some (3, ⟨[(1, 3)], 1⟩) ∧
    (train_once_state 5 7 (cWorkload 1) cSubmission 1 3 11).map
      (fun s => s.goal_reached) = some true ∧
    score_submission_on_workload 5 7 cEnvTight "mnist" "sub.py"
      "external" (some [2, 3]) (fun _ => 11) = some (.ok 2) := by
  decide

/-- Claim C3 as amended: a trial that never reaches the goal (and never
signals completion) returns its actual accumulated submission time,
which is at least `max_allowed_runtime_sec`; consequently it cannot be
selected as the orchestrator's minimum against a trial that reaches the
goal strictly within the budget (though it can still beat a
goal-reaching trial whose accumulated time is larger, as the
counterexample shows). -/
theorem c3_amended_failed_trial_exceeds_budget
    {fuel t0 batch_size fuelB t0B batch_sizeB : Nat} {hyperB : H}
    {rngB : Nat} {s sB : LoopState P M O E}
    (h : train_once_state fuel t0 w sub batch_size hyper rng = some s)
    (hg : s.goal_reached = false)
    (hc : s.training_complete = false)
    (hB : train_once_state fuelB t0B w sub batch_sizeB hyperB rngB =
      some sB)
    (hgoalB : sB.goal_reached = true)
    (hin : sB.accumulated_submission_time < w.max_allowed_runtime_sec) :
    w.max_allowed_runtime_sec ≤ s.accumulated_submission_time ∧
    min s.accumulated_submission_time sB.accumulated_submission_time =
      sB.accumulated_submission_time := by
  rw [train_once_state_eq] at h
  obtain ⟨s₁, hc₁, heq⟩ := trainLoop_exit continue_cond_init h
  have hfin := trainLoop_cond_final h
  have hitr : s.is_time_remaining = false := by
    rw [continue_cond, hg, hc] at hfin
    simpa using hfin
  have hnot : ¬ (s₁.accumulated_submission_time +
      step_submission_time w sub hyper s₁.global_step <
        w.max_allowed_runtime_sec) := by
    rw [heq, trainStep_is_time_remaining] at hitr
    simpa using hitr
  have hge : w.max_allowed_runtime_sec ≤ s.accumulated_submission_time := by
    rw [heq, trainStep_accumulated]
    omega
  exact ⟨hge, Nat.min_eq_right (le_trans (Nat.le_of_lt hin) hge)⟩

/-- Witness for the amended C3: with a 10-second budget, the failed
trial accumulates exactly the budget (10) and loses the minimum to a
trial that reached the goal in 3 seconds. -/
theorem c3_amended_witness :
    (cWorkload 10).max_allowed_runtime_sec ≤
      cBudgetFailState.accumulated_submission_time ∧
    min cBudgetFailState.accumulated_submission_time
        cBudgetGoalState.accumulated_submission_time =
      cBudgetGoalState.accumulated_submission_time :=
  c3_amended_failed_trial_exceeds_budget
    (by decide : train_once_state 20 7 (cWorkload 10) cSubmission 1 2 11 =
      some cBudgetFailState)
    (by decide) (by decide)
    (by decide : train_once_state 20 7 (cWorkload 10) cSubmission 1 3 11 =
      some cBudgetGoalState)
    (by decide) (by decide)

/-- Claim C4: under the external tuning ruleset, the orchestrator runs
`train_once` once per generated hyperparameter setting (one timing per
setting, in order) and returns the minimum of the per-trial accumulated
times. -/
theorem c4_external_scores_min_of_trials
    {fuel t0 : Nat} (env : RunnerEnv Q P M O B E H)
    (workload_name submission_path : String) (settings : List H)
    (trial_seeds : Nat → Nat) {t : Nat} {ts : List Nat}
    (hrun : run_trials fuel t0 (env.workloads workload_name)
        (env.load_submission env.flags_submission_path)
        ((env.load_submission env.flags_submission_path).get_batch_size
          workload_name) trial_seeds settings.enum = some (t :: ts)) :
    score_submission_on_workload fuel t0 env workload_name
        submission_path "external" (some settings) trial_seeds =
      some (.ok (ts.foldl min t)) ∧
    (t :: ts).length = settings.length ∧
    ts.foldl min t ∈ t :: ts ∧
    ∀ x ∈ t :: ts, ts.foldl min t ≤ x := by
  refine ⟨?_, ?_, foldl_min_mem ts t, foldl_min_le ts t⟩
  · unfold score_submission_on_workload
    rw [if_pos rfl]
    dsimp only
    rw [hrun]
  · have hlen := run_trials_length hrun
    simpa using hlen

/-- Witness for C4: external tuning over the three settings
`[10, 5, 8]`, all reaching the goal with those times — score 5. -/
theorem c4_witness :
    score_submission_on_workload 5 7 cEnv "mnist" "sub.py" "external"
        (some [10, 5, 8]) (fun _ => 11) = some (.ok 5) ∧
    ([10, 5, 8] : List Nat).length = 3 ∧
    (5 : Nat) ∈ [10, 5, 8] ∧
    ∀ x ∈ ([10, 5, 8] : List Nat), (5 : Nat) ≤ x :=
  c4_external_scores_min_of_trials cEnv "mnist" "sub.py" [10, 5, 8]
    (fun _ => 11)
    (by decide : run_trials 5 7 (cEnv.workloads "mnist")
      (cEnv.load_submission cEnv.flags_submission_path)
      ((cEnv.load_submission cEnv.flags_submission_path).get_batch_size
        "mnist") (fun _ => 11) ([10, 5, 8].enum) = some (10 :: [5, 8]))

/-- Claim C5: if `update_params` raises the training-complete signal on
its third call (step index 2, i.e. "step 3"), `train_once` catches it
inside the loop and terminates normally — it returns `some` value (no
exception reaches the caller) whose metrics carry `global_step = 3`. -/
theorem c5_completion_signal_caught_at_step3
    {fuel t0 batch_size : Nat} {s : LoopState P M O E}
    (hupd : ∀ (p : P) (m : M) (b : B × B) (o : O) (er : List (Nat × E))
      (i r : Nat), sub.update_params p m hyper b o er i r = none ↔ i = 2)
    (h : train_once_state fuel t0 w sub batch_size hyper rng = some s)
    (hcomp : s.training_complete = true) :
    s.global_step = 3 ∧
    train_once fuel t0 w sub batch_size hyper rng =
      some (s.accumulated_submission_time, ⟨s.eval_results, 3⟩) := by
  have hloop := h
  rw [train_once_state_eq] at hloop
  obtain ⟨s₁, hc₁, heq⟩ := trainLoop_exit continue_cond_init hloop
  have h₁ : s₁.training_complete = false := by
    simp only [continue_cond, Bool.and_eq_true, Bool.not_eq_true'] at hc₁
    exact hc₁.2
  have hnone : sub.update_params s₁.model_params s₁.model_state hyper
      (selected_batch w sub hyper (split4 rng).2.2.2
        (w.build_input_queue (split4 rng).1 "train" batch_size) s₁)
      s₁.optimizer_state s₁.eval_results s₁.global_step
      (step_update_rng (split4 rng).2.2.2 s₁.global_step) = none := by
    have hcomp' := hcomp
    rw [heq, trainStep_training_complete, h₁, Bool.false_or] at hcomp'
    exact Option.isNone_iff_eq_none.mp hcomp'
  have hgs₁ : s₁.global_step = 2 := (hupd _ _ _ _ _ _ _).mp hnone
  have hgs : s.global_step = 3 := by
    rw [heq, trainStep_global_step, hgs₁]
  refine ⟨hgs, ?_⟩
  rw [train_once, h, Option.map_some', hgs]

/-- Witness for C5: `cSubmissionSignal` raises the completion signal
exactly on step index 2; the trial ends normally at `global_step = 3`
with accumulated time 3. -/
theorem c5_witness :
    cSignalFinalState.global_step = 3 ∧
    train_once 9 7 cWorkloadNoGoal cSubmissionSignal 1 0 11 =
      some (cSignalFinalState.accumulated_submission_time,
        ⟨cSignalFinalState.eval_results, 3⟩) :=
  c5_completion_signal_caught_at_step3
    (by
      intro p m b o er i r
      simp only [cSubmissionSignal]
      split <;> simp_all)
    (by decide : train_once_state 9 7 cWorkloadNoGoal cSubmissionSignal
      1 0 11 = some cSignalFinalState)
    (by decide)

/-- From any freshly initialised loop state, a first step whose
submission-attributable duration reaches at least twice a 1-second
budget ends the loop immediately after exactly one iteration. -/
theorem trainLoop_stops_after_overrun_first_step
    {q : Q} {fuel t0 : Nat} {p : P} {m0 : M} {o : O}
    (hmax : w.max_allowed_runtime_sec = 1)
    (hupd : 2 ≤ sub.update_params_time hyper 0)
    (hfuel : 1 ≤ fuel) :
    ∃ s, trainLoop w sub hyper rng q fuel
        (init_loop_state t0 p m0 o) = some s ∧
      s.global_step = 1 ∧ s.is_time_remaining = false ∧
      2 ≤ s.accumulated_submission_time ∧ continue_cond s = false := by
  obtain ⟨n, rfl⟩ : ∃ n, fuel = n + 1 := ⟨fuel - 1, by omega⟩
  set s0 : LoopState P M O E := init_loop_state t0 p m0 o with hs0
  set s1 := trainStep w sub hyper rng q s0 with hs1
  have hacc : s1.accumulated_submission_time =
      0 + step_submission_time w sub hyper 0 := by
    rw [hs1, trainStep_accumulated]
    rfl
  have hacc2 : 2 ≤ s1.accumulated_submission_time := by
    rw [hacc]
    unfold step_submission_time
    omega
  have hitr : s1.is_time_remaining = false := by
    rw [hs1, trainStep_is_time_remaining]
    refine decide_eq_false ?_
    show ¬ (0 + step_submission_time w sub hyper 0 <
      w.max_allowed_runtime_sec)
    rw [hmax]
    unfold step_submission_time
    omega
  have hcond : continue_cond s1 = false := by
    rw [continue_cond, hitr]
    rfl
  refine ⟨s1, ?_, ?_, hitr, hacc2, hcond⟩
  · rw [trainLoop, if_pos continue_cond_init]
    exact trainLoop_of_cond_false hcond n
  · rw [hs1, trainStep_global_step]
    rfl

/-- Claim C6: the loop's three continuation conditions are re-evaluated
after every step and the loop stops as soon as any one flips (the final
state fails the conjoined guard); in particular, with
`max_allowed_runtime_sec = 1` and an `update_params` that takes at
least 2 seconds on its first call, `train_once` terminates after
exactly one step with `is_time_remaining = false` and accumulated
submission time at least 2. -/
theorem c6_overrun_first_step_stops_loop
    {fuel t0 batch_size : Nat}
    (hmax : w.max_allowed_runtime_sec = 1)
    (hupd : 2 ≤ sub.update_params_time hyper 0)
    (hfuel : 1 ≤ fuel) :
    ∃ s, train_once_state fuel t0 w sub batch_size hyper rng = some s ∧
      s.global_step = 1 ∧ s.is_time_remaining = false ∧
      2 ≤ s.accumulated_submission_time ∧ continue_cond s = false := by
  rw [train_once_state_eq]
  exact trainLoop_stops_after_overrun_first_step hmax hupd hfuel

/-- Witness for C6: the concrete 1-second-budget workload with a
2-second first update. -/
theorem c6_witness :
    ∃ s, train_once_state 5 7 (cWorkload 1) cSubmission 1 2 11 =
        some s ∧
      s.global_step = 1 ∧ s.is_time_remaining = false ∧
      2 ≤ s.accumulated_submission_time ∧ continue_cond s = false :=
  c6_overrun_first_step_stops_loop (by decide)
    (by decide : 2 ≤ cSubmission.update_params_time 2 0) (by decide)

/-- Claim C9: when `update_params` raises the training-complete signal,
the step is atomic with respect to trial state: `model_params`,
`model_state` and `optimizer_state` keep their pre-step values and the
eval triggered by the completion flag evaluates those pre-signal
parameters, yet the step's timed span is still added to
`accumulated_submission_time` and `global_step` is still incremented by
one (and the completion flag is set). -/
theorem c9_completion_signal_step_is_atomic
    {q : Q} (s : LoopState P M O E)
    (hupd : sub.update_params s.model_params s.model_state hyper
      (selected_batch w sub hyper rng q s) s.optimizer_state
      s.eval_results s.global_step
      (step_update_rng rng s.global_step) = none) :
    (trainStep w sub hyper rng q s).model_params = s.model_params ∧
    (trainStep w sub hyper rng q s).model_state = s.model_state ∧
    (trainStep w sub hyper rng q s).optimizer_state =
      s.optimizer_state ∧
    (trainStep w sub hyper rng q s).accumulated_submission_time =
      s.accumulated_submission_time +
        step_submission_time w sub hyper s.global_step ∧
    (trainStep w sub hyper rng q s).global_step = s.global_step + 1 ∧
    (trainStep w sub hyper rng q s).training_complete = true ∧
    (trainStep w sub hyper rng q s).eval_results =
      s.eval_results ++ [(s.global_step + 1,
        w.eval_model s.model_params s.model_state
          (step_eval_rng rng s.global_step))] := by
  simp only [trainStep, hupd, Option.isNone_none, Bool.or_true, or_true,
    if_true]
  simp [Nat.add_sub_cancel_left]

/-- Witness for C9: a submission that always raises the completion
signal, applied to a freshly initialised state: parameters, model state
and optimizer state stay 0, time 1 is accumulated, the step counts, and
the eval history records the pre-signal parameters. -/
theorem c9_witness :
    (trainStep cWorkloadNoGoal cSubmissionAlwaysSignal 0 11 0
      (init_loop_state 7 0 0 0)).model_params = 0 ∧
    (trainStep cWorkloadNoGoal cSubmissionAlwaysSignal 0 11 0
      (init_loop_state 7 0 0 0)).model_state = 0 ∧
    (trainStep cWorkloadNoGoal cSubmissionAlwaysSignal 0 11 0
      (init_loop_state 7 0 0 0)).optimizer_state = 0 ∧
    (trainStep cWorkloadNoGoal cSubmissionAlwaysSignal 0 11 0
      (init_loop_state 7 0 0 0)).accumulated_submission_time = 0 + 1 ∧
    (trainStep cWorkloadNoGoal cSubmissionAlwaysSignal 0 11 0
      (init_loop_state 7 0 0 0)).global_step = 0 + 1 ∧
    (trainStep cWorkloadNoGoal cSubmissionAlwaysSignal 0 11 0
      (init_loop_state 7 0 0 0)).training_complete = true ∧
    (trainStep cWorkloadNoGoal cSubmissionAlwaysSignal 0 11 0
      (init_loop_state 7 0 0 0)).eval_results = [] ++ [(0 + 1, 0)] :=
  c9_completion_signal_step_is_atomic (init_loop_state 7 0 0 0) rfl

/-- Counterexample to claim C7: not every workload raises a
configuration error at queue-build time for a batch size that is not
divisible by the device count.  The criteo1tb PyTorch
`build_input_queue` with 2 GPUs and global batch size 3 (3 % 2 > 0)
raises nothing and builds the queue with floored per-device batch size
1, consuming only 1 · 2 ≠ 3 examples per global batch — a silent
truncation. -/
theorem c7_counterexample :
    Workloads.criteo1tb_pytorch_build_input_queue 2 3 = .ok 1 ∧
    3 % 2 > 0 ∧ 1 * 2 ≠ 3 := by
  decide

/-- Claim C7 as amended: only the librispeech_conformer dataset builder
raises a configuration error when the batch size is not divisible by
the device count (and builds the evenly sharded dataset otherwise);
the criteo1tb PyTorch `build_input_queue` performs no check and
silently floors the per-device batch size, and the MNIST PyTorch
dataloader builder performs no check and lets the final batch be a
smaller remainder. -/
theorem c7_amended_only_librispeech_checks_divisibility :
    (∀ n b : Nat, b % n > 0 →
      Workloads.librispeech_build_dataset n b = .error (.value_error
        "Batch size must be divisible by the number of devices")) ∧
    (∀ n b : Nat, b % n = 0 →
      Workloads.librispeech_build_dataset n b = .ok (n, b / n)) ∧
    (∀ n b : Nat,
      Workloads.criteo1tb_pytorch_build_input_queue n b = .ok (b / n)) ∧
    (∀ k b : Nat, Workloads.mnist_build_dataloader k b =
      .ok (List.replicate (k / b) b ++
        if k % b > 0 then [k % b] else [])) := by
  refine ⟨?_, ?_, fun n b => rfl, fun k b => rfl⟩
  · intro n b h
    rw [Workloads.librispeech_build_dataset, if_pos h]
  · intro n b h
    rw [Workloads.librispeech_build_dataset, if_neg (by omega)]

/-- Witness for the amended C7 at concrete inputs: 8 devices reject
batch size 12 but accept 16 (two per device) in librispeech; criteo
floors 12 over 8 GPUs to 1 per device; MNIST chunks 10 examples into
batches `[4, 4, 2]`. -/
theorem c7_amended_witness :
    Workloads.librispeech_build_dataset 8 12 = .error (.value_error
      "Batch size must be divisible by the number of devices") ∧
    Workloads.librispeech_build_dataset 8 16 = .ok (8, 2) ∧
    Workloads.criteo1tb_pytorch_build_input_queue 8 12 = .ok 1 ∧
    Workloads.mnist_build_dataloader 10 4 = .ok [4, 4, 2] :=
  ⟨c7_amended_only_librispeech_checks_divisibility.1 8 12 (by decide),
    c7_amended_only_librispeech_checks_divisibility.2.1 8 16 (by decide),
    c7_amended_only_librispeech_checks_divisibility.2.2.1 8 12,
    c7_amended_only_librispeech_checks_divisibility.2.2.2 10 4⟩

/-- Counterexample to claim C8: after `init_model_fn` has run on the
MNIST PyTorch workload, reading `param_shapes` still raises
(`NotImplementedError`), so it is not the case that for every workload
instance the read succeeds once `init_model_fn` has run. -/
theorem c8_counterexample :
    Workloads.mnist_param_shapes
        (Workloads.mnist_init_model_fn Workloads.mnistInit) =
      .error .not_implemented_error := by
  decide

/-- Claim C8 as amended: for the criteo1tb workloads the lazy pattern
holds — reading `param_shapes` or `model_params_types` before
`init_model_fn` raises a `ValueError` (a programming-error failure, not
a normal return), and after `init_model_fn` both reads succeed — but
the MNIST PyTorch workload's `param_shapes` raises
`NotImplementedError` unconditionally, before and after
`init_model_fn`, and its `model_params_types` is an unguarded method
that returns `None` normally. -/
theorem c8_amended_lazy_caches_criteo_only {Sh Ty : Type}
    (jax_param_types : Sh → Ty) (dlrm_shapes : Sh) :
    Workloads.criteo_param_shapes (Workloads.criteoInit Sh Ty) =
      .error (.value_error
        "This should not happen, workload.init_model_fn() should be called before workload.param_shapes!") ∧
    Workloads.criteo_model_params_types jax_param_types
        (Workloads.criteoInit Sh Ty) =
      .error (.value_error
        "This should not happen, workload.init_model_fn() should be called before workload.param_shapes!") ∧
    Workloads.criteo_param_shapes
        (Workloads.criteo_init_model_fn dlrm_shapes
          (Workloads.criteoInit Sh Ty)) = .ok dlrm_shapes ∧
    Workloads.criteo_model_params_types jax_param_types
        (Workloads.criteo_init_model_fn dlrm_shapes
          (Workloads.criteoInit Sh Ty)) =
      .ok (⟨some dlrm_shapes, some (jax_param_types dlrm_shapes)⟩,
        jax_param_types dlrm_shapes) ∧
    Workloads.mnist_param_shapes Workloads.mnistInit =
      .error .not_implemented_error ∧
    Workloads.mnist_param_shapes
        (Workloads.mnist_init_model_fn Workloads.mnistInit) =
      .error .not_implemented_error ∧
    Workloads.mnist_model_params_types Workloads.mnistInit = none :=
  ⟨rfl, rfl, rfl, rfl, rfl, rfl, rfl⟩

/-- Claim C10: `score_submission_on_workload` ignores its
`submission_path` parameter — line 192 loads the submission module from
the global `FLAGS.submission_path` — so two calls differing only in
that argument produce the same score. -/
theorem c10_score_ignores_submission_path_argument
    (fuel t0 : Nat) (env : RunnerEnv Q P M O B E H)
    (workload_name pathA pathB tuning_ruleset : String)
    (tuning_search_space : Option (List H)) (trial_seeds : Nat → Nat) :
    score_submission_on_workload fuel t0 env workload_name pathA
        tuning_ruleset tuning_search_space trial_seeds =
      score_submission_on_workload fuel t0 env workload_name pathB
        tuning_ruleset tuning_search_space trial_seeds := rfl

end Claims

end AlgoEff
